import Mathlib

/-!
# Verification of the live-poll WebSocket server core

Shallow embedding of `src/live-poll/server/index.js`: a room registry,
per-connection session metadata, and a message handler dispatching
`JOIN`, `HOST_SET_QUESTION` and `VOTE` commands, plus the connection
close handler.

JavaScript runtime values that flow through the handler are modelled by
`JsVal`.  Numbers are modelled as rationals (the handler only compares
them and uses them as array indices; every number appearing in the
claims is exactly representable).  Objects and arrays carry a `ref` tag
standing for JavaScript reference identity, which is what `===` and
`Map` keys compare on non-primitives.
-/

namespace LivePoll

/-- A JavaScript value, as observed by the server's handlers.  Objects are
modelled by their property list plus a reference tag; arrays by their
element list plus a reference tag. -/
inductive JsVal where
  | undefined : JsVal
  | null : JsVal
  | boolean : Bool → JsVal
  | num : ℚ → JsVal
  | str : String → JsVal
  | arr : Nat → List JsVal → JsVal
  | obj : Nat → List (String × JsVal) → JsVal

/-- JavaScript truthiness (`!v` is `!truthy v`).  `NaN` is not modelled;
every number other than `0` is truthy. -/
def truthy : JsVal → Bool
  | .undefined => false
  | .null => false
  | .boolean b => b
  | .num x => x ≠ 0
  | .str s => s ≠ ""
  | .arr _ _ => true
  | .obj _ _ => true

/-- Strict equality `===` / `Map` key equality (SameValueZero, minus `NaN`):
structural on primitives, reference identity on objects and arrays. -/
def jsEq : JsVal → JsVal → Bool
  | .undefined, .undefined => true
  | .null, .null => true
  | .boolean a, .boolean b => a = b
  | .num a, .num b => a = b
  | .str a, .str b => a = b
  | .arr r _, .arr r' _ => r = r'
  | .obj r _, .obj r' _ => r = r'
  | _, _ => false

/-- Property access `v.k`.  Objects look the key up in their property list;
on every other value the accessed properties of interest are absent, giving
`undefined`.  (The source only dereferences values it has checked truthy,
so the `null`/`undefined` cases are never reached on the paths modelled.) -/
def prop (v : JsVal) (k : String) : JsVal :=
  match v with
  | .obj _ ps => ((ps.find? (fun p => p.1 == k)).map (fun p => p.2)).getD .undefined
  | _ => .undefined

/-- String coercion used by the template literal that builds ballot keys.
Faithful on strings, integers, booleans, `null`/`undefined` and plain
objects; JavaScript's float formatting of non-integer numbers is
abstracted by the `Rat` rendering. -/
def jsToString : JsVal → String
  | .undefined => "undefined"
  | .null => "null"
  | .boolean b => cond b "true" "false"
  | .num x => if x.den = 1 then toString x.num else toString x
  | .str s => s
  | .arr _ _ => ""
  | .obj _ _ => "[object Object]"

/-- ASCII case lowering of one character (`String.prototype.toLowerCase`
acts characterwise; full Unicode case mapping is abstracted to the ASCII
range, which covers every name the handlers compare). -/
def lowerChar (c : Char) : Char :=
  if 'A' ≤ c ∧ c ≤ 'Z' then Char.ofNat (c.toNat + 32) else c

/-- Whitespace as stripped by `String.prototype.trim`. -/
def isJsSpace (c : Char) : Bool :=
  c = ' ' || c = '\t' || c = '\n' || c = '\r' || c = '\x0b' || c = '\x0c'

/-- Embedding of `name.trim().toLowerCase()`, the vote-name normalization. -/
def normalizeName (s : String) : String :=
  ⟨(((s.data.dropWhile isJsSpace).reverse.dropWhile isJsSpace).reverse).map lowerChar⟩

/-- An active question as stored in a room:
`{ id: q.id, text: q.text, options: q.options }`. -/
structure Question where
  id : JsVal
  text : JsVal
  options : List JsVal

/-- A room's state (`rooms[roomId]`).  `clients` holds connection
identifiers; `votedBy` holds ballot-key strings. -/
structure Room where
  question : Option Question
  counts : List Int
  total : Int
  votedBy : List String
  clients : List Nat

/-- The fresh room created by `getRoom` on first reference. -/
def emptyRoom : Room :=
  { question := none, counts := [], total := 0, votedBy := [], clients := [] }

/-- The room registry `rooms : Map`, keyed by the (arbitrary) `roomId`
value with `Map` key equality `jsEq`. -/
def RoomMap := List (JsVal × Room)

/-- Lookup `rooms.get(k)` (guarded by `rooms.has(k)`). -/
def findRoom : RoomMap → JsVal → Option Room
  | [], _ => none
  | (k', r) :: rest, k => if jsEq k' k then some r else findRoom rest k

/-- Update `rooms.set(k, r)`: overwrite the binding for `k`, or append it. -/
def setRoom : RoomMap → JsVal → Room → RoomMap
  | [], k, r => [(k, r)]
  | (k', r') :: rest, k, r =>
    if jsEq k' k then (k, r) :: rest else (k', r') :: setRoom rest k r

/-- Embedding of `getRoom(roomId)`: create the room on first reference, then
return it. -/
def getRoom (rooms : RoomMap) (k : JsVal) : RoomMap × Room :=
  match findRoom rooms k with
  | some r => (rooms, r)
  | none => (setRoom rooms k emptyRoom, emptyRoom)

/-- Embedding of `Set.add` on the client set (adding a present element is a
no-op). -/
def addClient (cs : List Nat) (c : Nat) : List Nat :=
  if cs.contains c then cs else cs ++ [c]

/-- Embedding of `Set.delete` on the client set. -/
def removeClient (cs : List Nat) (c : Nat) : List Nat :=
  cs.filter (fun c' => c' ≠ c)

/-- Embedding of `Set.add` on the ballot-key set. -/
def addKey (ks : List String) (k : String) : List String :=
  if ks.contains k then ks else ks ++ [k]

/-- Session metadata `ws.meta = { roomId, name, role }`. -/
structure Meta where
  roomId : JsVal
  name : JsVal
  role : JsVal

/-- The metadata attached on connection: all fields `null`. -/
def initMeta : Meta :=
  { roomId := .null, name := .null, role := .null }

/-- An outgoing event, before serialization: `STATE` snapshots and `ERROR`
notices. -/
inductive Event where
  | state : JsVal → Option Question → List Int → Int → Event
  | error : String → Event

/-- Embedding of `errorMsg(message)`. -/
def errorMsg (message : String) : Event :=
  .error message

/-- Embedding of `roomState(roomId)`: the current snapshot (threading the registry
through the internal `getRoom`). -/
def roomState (rooms : RoomMap) (roomId : JsVal) : RoomMap × Event :=
  let (rooms', room) := getRoom rooms roomId
  (rooms', .state roomId room.question room.counts room.total)

/-- Embedding of `broadcast(roomId, msgObj)`: one send per member of the room.
Sends are `(connection id, event)` pairs; `safeSend`'s readyState guard is
a transport detail (all modelled connections are open). -/
def broadcast (rooms : RoomMap) (roomId : JsVal) (ev : Event) :
    RoomMap × List (Nat × Event) :=
  let (rooms', room) := getRoom rooms roomId
  (rooms', room.clients.map (fun c => (c, ev)))

/-- Embedding of `counts[optionIndex] += 1` for a number index that passed the range
check `0 <= x < counts.length`: an integer index increments the element;
a fractional index writes a non-element property of the array object,
leaving the array's elements (hence their sum and their serialization)
unchanged. -/
def incrAt (cs : List Int) (x : ℚ) : List Int :=
  if x.den = 1 then cs.set x.num.toNat (cs.getD x.num.toNat 0 + 1) else cs

/-- Result of one invocation of the `message` listener: the updated
registry and session metadata plus the list of sends, or an unhandled
exception escaping the listener (which aborts the Node process). -/
inductive Outcome where
  | ok : RoomMap → Meta → List (Nat × Event) → Outcome
  | throws : RoomMap → Meta → Outcome

/-- An inbound frame: either text that `JSON.parse` rejects, or the
parsed value. -/
inductive Inbound where
  | badJson : Inbound
  | value : JsVal → Inbound

/-- The `JOIN` branch of the message handler.  `meta` is the session's
current metadata, left untouched on the error paths. -/
def handleJoin (rooms : RoomMap) (self : Nat) (meta : Meta) (payload : JsVal) :
    Outcome :=
  let roomId := prop payload "roomId"
  let name := prop payload "name"
  let role := prop payload "role"
  if !truthy roomId || !truthy name || !truthy role then
    .ok rooms meta [(self, errorMsg "JOIN incompleto.")]
  else if !(jsEq role (.str "player") || jsEq role (.str "host")) then
    .ok rooms meta [(self, errorMsg "Rol inválido.")]
  else
    let meta' : Meta := { roomId := roomId, name := name, role := role }
    let (rooms₁, room) := getRoom rooms roomId
    let rooms₂ := setRoom rooms₁ roomId { room with clients := addClient room.clients self }
    let (rooms₃, ev) := roomState rooms₂ roomId
    .ok rooms₃ meta' [(self, ev)]

/-- The `HOST_SET_QUESTION` branch: host-only; validates the question and
replaces it, resetting `counts`, `total` and `votedBy`, then broadcasts the
snapshot. -/
def handleSetQuestion (rooms : RoomMap) (self : Nat) (meta : Meta)
    (payload : JsVal) : Outcome :=
  let roomId := meta.roomId
  let (rooms₀, room) := getRoom rooms roomId
  if !jsEq meta.role (.str "host") then
    .ok rooms₀ meta [(self, errorMsg "Solo host puede crear preguntas.")]
  else
    let q := prop payload "question"
    let isArr : Bool := match prop q "options" with | .arr _ _ => true | _ => false
    if !truthy q || !truthy (prop q "id") || !truthy (prop q "text") || !isArr then
      .ok rooms₀ meta [(self, errorMsg "Pregunta inválida.")]
    else
      let opts : List JsVal := match prop q "options" with | .arr _ es => es | _ => []
      if opts.length < 2 || opts.length > 4 then
        .ok rooms₀ meta [(self, errorMsg "Opciones deben ser 2 a 4.")]
      else
        let room' : Room :=
          { room with
            question := some { id := prop q "id", text := prop q "text", options := opts }
            counts := List.replicate opts.length 0
            total := 0
            votedBy := [] }
        let rooms₁ := setRoom rooms₀ roomId room'
        let (rooms₂, ev) := roomState rooms₁ roomId
        let (rooms₃, sends) := broadcast rooms₂ roomId ev
        .ok rooms₃ meta sends

/-- The `VOTE` branch: validates the ballot against the active question,
dedups by ballot key, then records the vote and broadcasts the snapshot.
A truthy non-string `name` reaches `name.trim()` and throws. -/
def handleVote (rooms : RoomMap) (self : Nat) (meta : Meta)
    (payload : JsVal) : Outcome :=
  let roomId := meta.roomId
  let (rooms₀, room) := getRoom rooms roomId
  let questionId := prop payload "questionId"
  let optionIndex := prop payload "optionIndex"
  let name := prop payload "name"
  match room.question with
  | none => .ok rooms₀ meta [(self, errorMsg "No hay pregunta activa.")]
  | some q =>
    if !jsEq questionId q.id then
      .ok rooms₀ meta [(self, errorMsg "QuestionId no coincide.")]
    else
      match optionIndex with
      | .num x =>
        if x < 0 ∨ (room.counts.length : ℚ) ≤ x then
          .ok rooms₀ meta [(self, errorMsg "Opción fuera de rango.")]
        else if !truthy name then
          .ok rooms₀ meta [(self, errorMsg "Nombre requerido para votar.")]
        else
          match name with
          | .str s =>
            let key := jsToString roomId ++ ":" ++ jsToString q.id ++ ":" ++ normalizeName s
            if room.votedBy.contains key then
              .ok rooms₀ meta [(self, errorMsg "Ya votaste en esta pregunta.")]
            else
              let room' : Room :=
                { room with
                  votedBy := addKey room.votedBy key
                  counts := incrAt room.counts x
                  total := room.total + 1 }
              let rooms₁ := setRoom rooms₀ roomId room'
              let (rooms₂, ev) := roomState rooms₁ roomId
              let (rooms₃, sends) := broadcast rooms₂ roomId ev
              .ok rooms₃ meta sends
          | _ => .throws rooms₀ meta
      | _ => .ok rooms₀ meta [(self, errorMsg "optionIndex inválido.")]

/-- One invocation of the `message` listener for connection `self` holding
session metadata `meta`, against registry `rooms`. -/
def handleMessage (rooms : RoomMap) (self : Nat) (meta : Meta)
    (inb : Inbound) : Outcome :=
  match inb with
  | .badJson => .ok rooms meta [(self, errorMsg "Mensaje no es JSON válido.")]
  | .value msg =>
    let type := prop msg "type"
    let payload := prop msg "payload"
    if !truthy type || !truthy payload then
      .ok rooms meta [(self, errorMsg "Formato inválido.")]
    else if jsEq type (.str "JOIN") then
      handleJoin rooms self meta payload
    else if !truthy meta.roomId then
      .ok rooms meta [(self, errorMsg "Debes hacer JOIN primero.")]
    else if jsEq type (.str "HOST_SET_QUESTION") then
      handleSetQuestion rooms self meta payload
    else if jsEq type (.str "VOTE") then
      handleVote rooms self meta payload
    else
      let (rooms₀, _) := getRoom rooms meta.roomId
      .ok rooms₀ meta [(self, errorMsg "Tipo de mensaje no soportado.")]

/-- The `close` listener: remove the connection from the room recorded in
its metadata (and only that one). -/
def handleClose (rooms : RoomMap) (self : Nat) (meta : Meta) : RoomMap :=
  if !truthy meta.roomId then rooms
  else
    let (rooms₀, room) := getRoom rooms meta.roomId
    setRoom rooms₀ meta.roomId { room with clients := removeClient room.clients self }


/-! ## Concrete scenario (spec §8, Scenarios A/B/E)

Connection `0` joins room `"R"` as host, publishes the two-option question
`q1`, and votes are then submitted against it.  Further concrete values
instantiate the general theorems below. -/

/-- Parsed `JOIN` of connection 0 into room `"R"` as `"host"`. -/
def joinHostVal : JsVal :=
  .obj 0 [("type", .str "JOIN"),
    ("payload", .obj 1 [("roomId", .str "R"), ("name", .str "h"), ("role", .str "host")])]

/-- Inbound frame carrying `joinHostVal`. -/
def joinHostMsg : Inbound := .value joinHostVal

/-- Session metadata bound by `joinHostMsg`. -/
def hostMeta : Meta := { roomId := .str "R", name := .str "h", role := .str "host" }

/-- Session metadata of a player in room `"R"`. -/
def playerMeta : Meta := { roomId := .str "R", name := .str "p", role := .str "player" }

/-- Parsed `HOST_SET_QUESTION` publishing the two-option question `q1`. -/
def setQ1Val : JsVal :=
  .obj 2 [("type", .str "HOST_SET_QUESTION"),
    ("payload", .obj 3 [("question", .obj 4 [("id", .str "q1"), ("text", .str "Color?"),
      ("options", .arr 5 [.str "Red", .str "Blue"])])])]

/-- Inbound frame carrying `setQ1Val`. -/
def setQ1Msg : Inbound := .value setQ1Val

/-- The stored form of the published question. -/
def q1 : Question := { id := .str "q1", text := .str "Color?", options := [.str "Red", .str "Blue"] }

/-- Room `"R"` after the host joined. -/
def roomJoined : Room := { emptyRoom with clients := [0] }

/-- Registry after `joinHostMsg` on a fresh server. -/
def roomsAfterJoin : RoomMap := [(.str "R", roomJoined)]

/-- Room `"R"` after `setQ1Msg`. -/
def roomSetQ : Room :=
  { question := some q1, counts := [0, 0], total := 0, votedBy := [], clients := [0] }

/-- Registry after `setQ1Msg`. -/
def roomsAfterSetQ : RoomMap := [(.str "R", roomSetQ)]

/-- Parsed `VOTE` with the non-integer `optionIndex` `1/2` (a JavaScript
number, hence accepted by `typeof optionIndex === "number"`). -/
def voteHalfVal : JsVal :=
  .obj 6 [("type", .str "VOTE"),
    ("payload", .obj 7 [("questionId", .str "q1"), ("optionIndex", .num (mkRat 1 2)),
      ("name", .str "Ana")])]

/-- Inbound frame carrying `voteHalfVal`. -/
def voteHalfMsg : Inbound := .value voteHalfVal

/-- Room `"R"` after `voteHalfMsg`: the ballot is recorded in `votedBy` and
`total`, but no entry of `counts` changed. -/
def roomHalf : Room :=
  { question := some q1, counts := [0, 0], total := 1, votedBy := ["R:q1:ana"], clients := [0] }

/-- Registry after `voteHalfMsg`. -/
def roomsAfterHalfVote : RoomMap := [(.str "R", roomHalf)]

/-- Parsed `VOTE` whose `name` is the number `1`: truthy, but without a
`trim` method. -/
def voteBadNameVal : JsVal :=
  .obj 8 [("type", .str "VOTE"),
    ("payload", .obj 9 [("questionId", .str "q1"), ("optionIndex", .num 0), ("name", .num 1)])]

/-- Inbound frame carrying `voteBadNameVal`. -/
def voteBadNameMsg : Inbound := .value voteBadNameVal

/-- Parsed retry `VOTE` by the same person: `" ANA "` normalizes to `"ana"`,
colliding with the recorded ballot key, and chooses a different (valid)
option index. -/
def voteRetryVal : JsVal :=
  .obj 10 [("type", .str "VOTE"),
    ("payload", .obj 11 [("questionId", .str "q1"), ("optionIndex", .num 1),
      ("name", .str " ANA ")])]

/-- A second question, with three options (spec §8, Scenario C). -/
def q2 : Question := { id := .str "q2", text := .str "Size?", options := [.str "S", .str "M", .str "L"] }

/-- Parsed `HOST_SET_QUESTION` publishing `q2`. -/
def setQ2Val : JsVal :=
  .obj 12 [("type", .str "HOST_SET_QUESTION"),
    ("payload", .obj 13 [("question", .obj 14 [("id", .str "q2"), ("text", .str "Size?"),
      ("options", .arr 15 [.str "S", .str "M", .str "L"])])])]

/-- Room `"R"` after `setQ2Val`: counts reset to three zeros, ballots cleared. -/
def roomSetQ2 : Room :=
  { question := some q2, counts := [0, 0, 0], total := 0, votedBy := [], clients := [0] }

/-- Registry after `setQ2Val`. -/
def roomsAfterSetQ2 : RoomMap := [(.str "R", roomSetQ2)]

/-- Parsed `JOIN` of connection 7 into room `"R2"` as `"player"`. -/
def joinAnaVal : JsVal :=
  .obj 16 [("type", .str "JOIN"),
    ("payload", .obj 17 [("roomId", .str "R2"), ("name", .str "Ana"), ("role", .str "player")])]

/-- Parsed `JOIN` of connection 9 into room `"A"`. -/
def joinAVal : JsVal :=
  .obj 18 [("type", .str "JOIN"),
    ("payload", .obj 19 [("roomId", .str "A"), ("name", .str "n"), ("role", .str "player")])]

/-- Parsed `JOIN` of the same connection 9 into room `"B"`. -/
def joinBVal : JsVal :=
  .obj 20 [("type", .str "JOIN"),
    ("payload", .obj 21 [("roomId", .str "B"), ("name", .str "n"), ("role", .str "player")])]

/-- Session metadata after `joinAVal`. -/
def metaA : Meta := { roomId := .str "A", name := .str "n", role := .str "player" }

/-- Session metadata after `joinBVal` (overwriting `metaA`). -/
def metaB : Meta := { roomId := .str "B", name := .str "n", role := .str "player" }

/-- Registry after connection 9 joined room `"A"` on a fresh server. -/
def roomsA : RoomMap := [(.str "A", { emptyRoom with clients := [9] })]

/-- Registry after connection 9 joined room `"A"` and then room `"B"`: it is
a member of both. -/
def roomsAB : RoomMap :=
  [(.str "A", { emptyRoom with clients := [9] }), (.str "B", { emptyRoom with clients := [9] })]

/-! ## Registry and set lemmas -/

theorem jsEq_refl (v : JsVal) : jsEq v v = true := by
  cases v <;> simp [jsEq]

theorem jsEq_same (a b c : JsVal) (h : jsEq a b = true) : jsEq a c = jsEq b c := by
  cases a <;> cases b <;> simp [jsEq] at h ⊢ <;>
    (try subst h) <;> cases c <;> simp [jsEq]

theorem getRoom_found (rooms : RoomMap) (k : JsVal) (r : Room)
    (h : findRoom rooms k = some r) : getRoom rooms k = (rooms, r) := by
  simp [getRoom, h]

theorem findRoom_setRoom_self (rooms : RoomMap) (k : JsVal) (r : Room) :
    findRoom (setRoom rooms k r) k = some r := by
  induction rooms with
  | nil => simp [setRoom, findRoom, jsEq_refl]
  | cons hd tl ih =>
    obtain ⟨k', r'⟩ := hd
    by_cases h : jsEq k' k = true
    · simp [setRoom, h, findRoom, jsEq_refl]
    · simp only [Bool.not_eq_true] at h
      simp [setRoom, h, findRoom, ih]

theorem findRoom_setRoom_other (rooms : RoomMap) (k k' : JsVal) (r : Room)
    (h : jsEq k k' = false) :
    findRoom (setRoom rooms k r) k' = findRoom rooms k' := by
  induction rooms with
  | nil => simp [setRoom, findRoom, h]
  | cons hd tl ih =>
    obtain ⟨a, b⟩ := hd
    by_cases ha : jsEq a k = true
    · have : jsEq a k' = jsEq k k' := jsEq_same a k k' ha
      simp [setRoom, ha, findRoom, h, this]
    · simp only [Bool.not_eq_true] at ha
      simp [setRoom, ha, findRoom, ih]

theorem addClient_contains_self (cs : List Nat) (c : Nat) :
    (addClient cs c).contains c = true := by
  simp only [addClient]
  split <;> simp_all

theorem removeClient_contains_self (cs : List Nat) (c : Nat) :
    (removeClient cs c).contains c = false := by
  simp [removeClient, List.mem_filter]

theorem setRoom_setRoom (rooms : RoomMap) (k : JsVal) (r r' : Room) :
    setRoom (setRoom rooms k r) k r' = setRoom rooms k r' := by
  induction rooms with
  | nil => simp [setRoom, jsEq_refl]
  | cons hd tl ih =>
    obtain ⟨a, b⟩ := hd
    by_cases h : jsEq a k = true
    · simp [setRoom, h, jsEq_refl]
    · simp only [Bool.not_eq_true] at h
      simp [setRoom, h, ih]

theorem getRoom_setRoom_self (rooms : RoomMap) (k : JsVal) (r : Room) :
    getRoom (setRoom rooms k r) k = (setRoom rooms k r, r) := by
  simp [getRoom, findRoom_setRoom_self]

/-- Unfolding of a well-formed `JOIN`: the session binds `roomId`, `name`
and `role`, the connection is added to the room's client set (the room being
created on first reference), and the current snapshot is sent back to the
joining connection only. -/
theorem join_updates
    (rooms : RoomMap) (self : Nat) (meta : Meta) (msg : JsVal)
    (rid n : String) (role : JsVal)
    (hType : prop msg "type" = .str "JOIN")
    (hPayload : truthy (prop msg "payload") = true)
    (hRoomId : prop (prop msg "payload") "roomId" = .str rid) (hrid : rid ≠ "")
    (hName : prop (prop msg "payload") "name" = .str n) (hn : n ≠ "")
    (hRole : prop (prop msg "payload") "role" = role)
    (hRoleOk : role = .str "player" ∨ role = .str "host") :
    handleMessage rooms self meta (.value msg)
      = .ok (setRoom rooms (.str rid)
              { (findRoom rooms (.str rid)).getD emptyRoom with
                clients := addClient ((findRoom rooms (.str rid)).getD emptyRoom).clients self })
          { roomId := .str rid, name := .str n, role := role }
          [(self, .state (.str rid)
              ((findRoom rooms (.str rid)).getD emptyRoom).question
              ((findRoom rooms (.str rid)).getD emptyRoom).counts
              ((findRoom rooms (.str rid)).getD emptyRoom).total)] := by
  have e1 : truthy (JsVal.str "JOIN") = true := rfl
  have e2 : jsEq (JsVal.str "JOIN") (JsVal.str "JOIN") = true := rfl
  have hRoleT : truthy role = true := by
    rcases hRoleOk with h | h <;> simp [h, truthy]
  have hRoleEq : (jsEq role (.str "player") || jsEq role (.str "host")) = true := by
    rcases hRoleOk with h | h <;> simp [h, jsEq]
  have hRidT : truthy (.str rid) = true := by simp [truthy, hrid]
  have hNT : truthy (.str n) = true := by simp [truthy, hn]
  cases hFind : findRoom rooms (.str rid) with
  | none =>
    simp [handleMessage, hType, hPayload, e1, e2, handleJoin, hRoomId, hName, hRole,
          hRidT, hNT, hRoleT, hRoleEq, getRoom, roomState, hFind,
          setRoom_setRoom, findRoom_setRoom_self]
  | some room =>
    simp [handleMessage, hType, hPayload, e1, e2, handleJoin, hRoomId, hName, hRole,
          hRidT, hNT, hRoleT, hRoleEq, getRoom, roomState, hFind,
          setRoom_setRoom, findRoom_setRoom_self]

/-! ## Claims -/

/-- Claim C1 (violated by the code): the invariant `total == sum(counts)` is
claimed to hold at all times, every successful vote incrementing one entry of
`counts` together with `total`.  On a fresh server the host joins room `"R"`,
publishes the 2-option question `q1`, and a `VOTE` carrying the non-integer
number `1/2` as `optionIndex` is then accepted (only `typeof` and the range
are checked): `total` becomes `1` while `counts` stays `[0, 0]`, so the room
reaches a state with `total = 1 ≠ 0 = sum(counts)`. -/
theorem fractional_vote_breaks_total_sum_invariant :
    handleMessage [] 0 initMeta joinHostMsg
        = .ok roomsAfterJoin hostMeta [(0, .state (.str "R") none [] 0)]
    ∧ handleMessage roomsAfterJoin 0 hostMeta setQ1Msg
        = .ok roomsAfterSetQ hostMeta [(0, .state (.str "R") (some q1) [0, 0] 0)]
    ∧ handleMessage roomsAfterSetQ 0 hostMeta voteHalfMsg
        = .ok roomsAfterHalfVote hostMeta [(0, .state (.str "R") (some q1) [0, 0] 1)]
    ∧ (findRoom roomsAfterHalfVote (.str "R")).map (fun r => (r.total, r.counts.sum))
        = some (1, 0) :=
  ⟨rfl, rfl, rfl, rfl⟩

/-- Claim C3 (violated by the code): a `VOTE` whose `optionIndex` is not an
integer in `[0, len(counts))` is claimed to fail with `InvalidOption`.  The
handler only checks `typeof optionIndex === "number"` and the range, so the
non-integer index `1/2` against the reachable 2-option question `q1` is
accepted: the ballot is recorded (`votedBy`, `total`) and a `STATE` snapshot
is broadcast instead of the `InvalidOption` error. -/
theorem fractional_option_index_not_rejected :
    handleMessage roomsAfterSetQ 0 hostMeta voteHalfMsg
      = .ok roomsAfterHalfVote hostMeta [(0, .state (.str "R") (some q1) [0, 0] 1)]
    ∧ (findRoom roomsAfterHalfVote (.str "R")).map Room.votedBy = some ["R:q1:ana"] :=
  ⟨rfl, rfl⟩

/-- Claim C5 (violated by the code): the message handler is claimed never to
throw an unhandled exception.  A `VOTE` whose `name` field is the number `1`
passes the `!name` truthiness check and reaches `name.trim()`, which is not a
function on a number: the listener throws a `TypeError` that nothing catches,
aborting the process. -/
theorem vote_with_numeric_name_throws :
    handleMessage roomsAfterSetQ 0 hostMeta voteBadNameMsg
      = .throws roomsAfterSetQ hostMeta :=
  rfl


/-- Claim C2: once a ballot key `(roomId, questionId, normalizedName)` is
recorded in `votedBy`, a further `VOTE` carrying the same key never succeeds
and leaves the room state unchanged: for every choice of `optionIndex` the
handler replies an error to the sender only, and whenever `optionIndex` is a
number in range the error is precisely the `DuplicateVote` message. -/
theorem duplicate_vote_rejected
    (rooms : RoomMap) (self : Nat) (meta : Meta) (room : Room) (q : Question)
    (msg : JsVal) (s : String)
    (hType : prop msg "type" = .str "VOTE")
    (hPayload : truthy (prop msg "payload") = true)
    (hJoined : truthy meta.roomId = true)
    (hRoom : findRoom rooms meta.roomId = some room)
    (hQ : room.question = some q)
    (hQid : jsEq (prop (prop msg "payload") "questionId") q.id = true)
    (hName : prop (prop msg "payload") "name" = .str s) (hs : s ≠ "")
    (hKey : room.votedBy.contains
        (jsToString meta.roomId ++ ":" ++ jsToString q.id ++ ":" ++ normalizeName s) = true) :
    (∃ m, handleMessage rooms self meta (.value msg) = .ok rooms meta [(self, errorMsg m)])
    ∧ (∀ x : ℚ, prop (prop msg "payload") "optionIndex" = .num x →
        ¬ x < 0 → x < (room.counts.length : ℚ) →
        handleMessage rooms self meta (.value msg)
          = .ok rooms meta [(self, errorMsg "Ya votaste en esta pregunta.")]) := by
  have e1 : truthy (JsVal.str "VOTE") = true := rfl
  have e2 : jsEq (JsVal.str "VOTE") (.str "JOIN") = false := rfl
  have e3 : jsEq (JsVal.str "VOTE") (.str "HOST_SET_QUESTION") = false := rfl
  have e4 : jsEq (JsVal.str "VOTE") (.str "VOTE") = true := rfl
  have hsT : truthy (JsVal.str s) = true := by simp [truthy, hs]
  have gr := getRoom_found rooms meta.roomId room hRoom
  have hKeyMem : (jsToString meta.roomId ++ ":" ++ jsToString q.id ++ ":" ++
      normalizeName s) ∈ room.votedBy := by simpa using hKey
  constructor
  · cases hOI : prop (prop msg "payload") "optionIndex"
    case num x =>
      by_cases hr : x < 0 ∨ (room.counts.length : ℚ) ≤ x
      · exact ⟨"Opción fuera de rango.", by
          simp [handleMessage, hType, hPayload, hJoined, e1, e2, e3, e4, handleVote,
                gr, hQ, hQid, hOI, hr]⟩
      · exact ⟨"Ya votaste en esta pregunta.", by
          simp [handleMessage, hType, hPayload, hJoined, e1, e2, e3, e4, handleVote,
                gr, hQ, hQid, hOI, hr, hName, hsT, hKeyMem]⟩
    all_goals exact ⟨"optionIndex inválido.", by
      simp [handleMessage, hType, hPayload, hJoined, e1, e2, e3, e4, handleVote,
            gr, hQ, hQid, hOI]⟩
  · intro x hOI h0 hlen
    have hr : ¬ (x < 0 ∨ (room.counts.length : ℚ) ≤ x) := by
      rw [not_or]
      exact ⟨h0, not_le.mpr hlen⟩
    simp [handleMessage, hType, hPayload, hJoined, e1, e2, e3, e4, handleVote,
          gr, hQ, hQid, hOI, hr, hName, hsT, hKeyMem]

/-- Witness for `duplicate_vote_rejected`: after `"Ana"` has voted on `q1` in
room `"R"`, a retry as `" ANA "` (same key after normalization) with the
valid option index `1` is rejected with the `DuplicateVote` message and the
registry is unchanged. -/
theorem duplicate_vote_rejected_witness :
    handleMessage roomsAfterHalfVote 0 hostMeta (.value voteRetryVal)
      = .ok roomsAfterHalfVote hostMeta [(0, errorMsg "Ya votaste en esta pregunta.")] :=
  (duplicate_vote_rejected roomsAfterHalfVote 0 hostMeta roomHalf q1 voteRetryVal " ANA "
      rfl rfl rfl rfl rfl rfl rfl (by decide) rfl).2 1 rfl
    (by norm_num) (by norm_num [roomHalf])

/-- Claim C4: a host setting a valid question (truthy id and text, 2 to 4
options) replaces `room.question`, resets `counts` to a zero vector of the
new option count, resets `total` to 0, clears `votedBy`, and the resulting
snapshot is sent to every member of the room. -/
theorem set_question_resets_and_broadcasts
    (rooms : RoomMap) (self : Nat) (meta : Meta) (room : Room)
    (msg qv idv textv : JsVal) (ref : Nat) (opts : List JsVal)
    (hType : prop msg "type" = .str "HOST_SET_QUESTION")
    (hPayload : truthy (prop msg "payload") = true)
    (hJoined : truthy meta.roomId = true)
    (hRoom : findRoom rooms meta.roomId = some room)
    (hHost : jsEq meta.role (.str "host") = true)
    (hQv : prop (prop msg "payload") "question" = qv)
    (hQT : truthy qv = true)
    (hId : prop qv "id" = idv) (hIdT : truthy idv = true)
    (hText : prop qv "text" = textv) (hTextT : truthy textv = true)
    (hOpts : prop qv "options" = .arr ref opts)
    (hLen2 : 2 ≤ opts.length) (hLen4 : opts.length ≤ 4) :
    handleMessage rooms self meta (.value msg)
      = .ok (setRoom rooms meta.roomId
              { question := some { id := idv, text := textv, options := opts },
                counts := List.replicate opts.length 0,
                total := 0, votedBy := [], clients := room.clients })
          meta
          (room.clients.map (fun c =>
            (c, Event.state meta.roomId (some { id := idv, text := textv, options := opts })
                  (List.replicate opts.length 0) 0)))
    ∧ ∀ c ∈ room.clients,
        (c, Event.state meta.roomId (some { id := idv, text := textv, options := opts })
              (List.replicate opts.length 0) 0)
          ∈ room.clients.map (fun c' =>
              (c', Event.state meta.roomId (some { id := idv, text := textv, options := opts })
                    (List.replicate opts.length 0) 0)) := by
  constructor
  · have e1 : truthy (JsVal.str "HOST_SET_QUESTION") = true := rfl
    have e2 : jsEq (JsVal.str "HOST_SET_QUESTION") (.str "JOIN") = false := rfl
    have e3 : jsEq (JsVal.str "HOST_SET_QUESTION") (.str "HOST_SET_QUESTION") = true := rfl
    have hl2 : ¬ opts.length < 2 := by omega
    have hl4 : ¬ opts.length > 4 := by omega
    simp [handleMessage, hType, hPayload, hJoined, e1, e2, e3, handleSetQuestion,
          getRoom_found rooms meta.roomId room hRoom, hHost, hQv, hQT, hId, hIdT,
          hText, hTextT, hOpts, hl2, hl4, roomState, broadcast, getRoom_setRoom_self]
  · intro c hc
    exact List.mem_map_of_mem _ hc

/-- Witness for `set_question_resets_and_broadcasts`: replacing `q1` by the
three-option `q2` in room `"R"` (where `"Ana"` had a recorded ballot) resets
`counts` to `[0, 0, 0]`, `total` to `0`, clears `votedBy`, and broadcasts the
new snapshot to the room's one member. -/
theorem set_question_resets_and_broadcasts_witness :
    handleMessage roomsAfterHalfVote 0 hostMeta (.value setQ2Val)
      = .ok roomsAfterSetQ2 hostMeta [(0, .state (.str "R") (some q2) [0, 0, 0] 0)] :=
  (set_question_resets_and_broadcasts roomsAfterHalfVote 0 hostMeta roomHalf setQ2Val
      (.obj 14 [("id", .str "q2"), ("text", .str "Size?"),
        ("options", .arr 15 [.str "S", .str "M", .str "L"])])
      (.str "q2") (.str "Size?") 15 [.str "S", .str "M", .str "L"]
      rfl rfl rfl rfl rfl rfl rfl rfl rfl rfl rfl rfl (by decide) (by decide)).1


/-- Claim C6: malformed input — text `JSON.parse` rejects, an envelope with a
falsy `type` or `payload`, a well-formed envelope of unknown type, or a
command missing required payload fields — always results in a single `ERROR`
event to the sending connection, no broadcast to other members, and no
mutation of session metadata or of any room (given the session invariant
that a joined session's room exists). -/
theorem malformed_input_error_only
    (rooms : RoomMap) (self : Nat) (meta : Meta)
    (hReach : truthy meta.roomId = false ∨ ∃ room, findRoom rooms meta.roomId = some room) :
    (handleMessage rooms self meta .badJson
      = .ok rooms meta [(self, errorMsg "Mensaje no es JSON válido.")])
    ∧ (∀ msg, truthy (prop msg "type") = false ∨ truthy (prop msg "payload") = false →
        handleMessage rooms self meta (.value msg)
          = .ok rooms meta [(self, errorMsg "Formato inválido.")])
    ∧ (∀ msg, truthy (prop msg "type") = true → truthy (prop msg "payload") = true →
        jsEq (prop msg "type") (.str "JOIN") = false →
        jsEq (prop msg "type") (.str "HOST_SET_QUESTION") = false →
        jsEq (prop msg "type") (.str "VOTE") = false →
        ∃ m, handleMessage rooms self meta (.value msg) = .ok rooms meta [(self, errorMsg m)])
    ∧ (∀ msg, prop msg "type" = .str "JOIN" → truthy (prop msg "payload") = true →
        (truthy (prop (prop msg "payload") "roomId") = false
          ∨ truthy (prop (prop msg "payload") "name") = false
          ∨ truthy (prop (prop msg "payload") "role") = false) →
        handleMessage rooms self meta (.value msg)
          = .ok rooms meta [(self, errorMsg "JOIN incompleto.")])
    ∧ (∀ msg, prop msg "type" = .str "HOST_SET_QUESTION" → truthy (prop msg "payload") = true →
        prop (prop msg "payload") "question" = .undefined →
        ∃ m, handleMessage rooms self meta (.value msg) = .ok rooms meta [(self, errorMsg m)])
    ∧ (∀ msg, prop msg "type" = .str "VOTE" → truthy (prop msg "payload") = true →
        prop (prop msg "payload") "optionIndex" = .undefined →
        ∃ m, handleMessage rooms self meta (.value msg) = .ok rooms meta [(self, errorMsg m)]) := by
  have eU : truthy JsVal.undefined = false := rfl
  have eJ : truthy (JsVal.str "JOIN") = true := rfl
  have eJJ : jsEq (JsVal.str "JOIN") (JsVal.str "JOIN") = true := rfl
  have eH : truthy (JsVal.str "HOST_SET_QUESTION") = true := rfl
  have eHJ : jsEq (JsVal.str "HOST_SET_QUESTION") (.str "JOIN") = false := rfl
  have eHH : jsEq (JsVal.str "HOST_SET_QUESTION") (.str "HOST_SET_QUESTION") = true := rfl
  have eV : truthy (JsVal.str "VOTE") = true := rfl
  have eVJ : jsEq (JsVal.str "VOTE") (.str "JOIN") = false := rfl
  have eVH : jsEq (JsVal.str "VOTE") (.str "HOST_SET_QUESTION") = false := rfl
  have eVV : jsEq (JsVal.str "VOTE") (.str "VOTE") = true := rfl
  refine ⟨rfl, ?_, ?_, ?_, ?_, ?_⟩
  · intro msg h
    rcases h with h | h <;> simp [handleMessage, h]
  · intro msg hT hP hJ hH hV
    by_cases hJd : truthy meta.roomId = true
    · rcases hReach with hU | ⟨room, hRoom⟩
      · rw [hJd] at hU; exact absurd hU (by simp)
      · exact ⟨"Tipo de mensaje no soportado.", by
          simp [handleMessage, hT, hP, hJ, hH, hV, hJd,
                getRoom_found rooms meta.roomId room hRoom]⟩
    · simp only [Bool.not_eq_true] at hJd
      exact ⟨"Debes hacer JOIN primero.", by simp [handleMessage, hT, hP, hJ, hJd]⟩
  · intro msg hT hP hMissing
    rcases hMissing with h | h | h <;> simp [handleMessage, hT, hP, eJ, eJJ, handleJoin, h]
  · intro msg hT hP hQ
    by_cases hJd : truthy meta.roomId = true
    · rcases hReach with hU | ⟨room, hRoom⟩
      · rw [hJd] at hU; exact absurd hU (by simp)
      · by_cases hHost : jsEq meta.role (.str "host") = true
        · exact ⟨"Pregunta inválida.", by
            simp [handleMessage, hT, hP, eH, eHJ, eHH, hJd, handleSetQuestion,
                  getRoom_found rooms meta.roomId room hRoom, hHost, hQ, eU]⟩
        · simp only [Bool.not_eq_true] at hHost
          exact ⟨"Solo host puede crear preguntas.", by
            simp [handleMessage, hT, hP, eH, eHJ, eHH, hJd, handleSetQuestion,
                  getRoom_found rooms meta.roomId room hRoom, hHost]⟩
    · simp only [Bool.not_eq_true] at hJd
      exact ⟨"Debes hacer JOIN primero.", by simp [handleMessage, hT, hP, eH, eHJ, hJd]⟩
  · intro msg hT hP hOI
    by_cases hJd : truthy meta.roomId = true
    · rcases hReach with hU | ⟨room, hRoom⟩
      · rw [hJd] at hU; exact absurd hU (by simp)
      · cases hQm : room.question with
        | none => exact ⟨"No hay pregunta activa.", by
            simp [handleMessage, hT, hP, eV, eVJ, eVH, eVV, hJd, handleVote,
                  getRoom_found rooms meta.roomId room hRoom, hQm]⟩
        | some q =>
          by_cases hQid : jsEq (prop (prop msg "payload") "questionId") q.id = true
          · exact ⟨"optionIndex inválido.", by
              simp [handleMessage, hT, hP, eV, eVJ, eVH, eVV, hJd, handleVote,
                    getRoom_found rooms meta.roomId room hRoom, hQm, hQid, hOI]⟩
          · simp only [Bool.not_eq_true] at hQid
            exact ⟨"QuestionId no coincide.", by
              simp [handleMessage, hT, hP, eV, eVJ, eVH, eVV, hJd, handleVote,
                    getRoom_found rooms meta.roomId room hRoom, hQm, hQid]⟩
    · simp only [Bool.not_eq_true] at hJd
      exact ⟨"Debes hacer JOIN primero.", by simp [handleMessage, hT, hP, eV, eVJ, hJd]⟩

/-- Witness for `malformed_input_error_only`: unparseable text on a fresh
connection yields the parse-error reply to that connection only, with the
registry untouched. -/
theorem malformed_input_error_only_witness :
    handleMessage [] 3 initMeta .badJson
      = .ok [] initMeta [(3, errorMsg "Mensaje no es JSON válido.")] :=
  (malformed_input_error_only [] 3 initMeta (Or.inl rfl)).1

/-- Claim C7: a joined session whose role is not `host` attempting
`HOST_SET_QUESTION` receives the `Forbidden` error on its own connection and
the registry — in particular the room's question, counts, total and ballots —
is unchanged. -/
theorem nonhost_set_question_forbidden
    (rooms : RoomMap) (self : Nat) (meta : Meta) (room : Room) (msg : JsVal)
    (hType : prop msg "type" = .str "HOST_SET_QUESTION")
    (hPayload : truthy (prop msg "payload") = true)
    (hJoined : truthy meta.roomId = true)
    (hRoom : findRoom rooms meta.roomId = some room)
    (hRole : jsEq meta.role (.str "host") = false) :
    handleMessage rooms self meta (.value msg)
      = .ok rooms meta [(self, errorMsg "Solo host puede crear preguntas.")] := by
  have e1 : truthy (.str "HOST_SET_QUESTION") = true := rfl
  have e2 : jsEq (.str "HOST_SET_QUESTION") (.str "JOIN") = false := rfl
  have e3 : jsEq (.str "HOST_SET_QUESTION") (.str "HOST_SET_QUESTION") = true := rfl
  simp [handleMessage, hType, e1, e2, e3, hPayload, hJoined, handleSetQuestion,
        getRoom_found rooms meta.roomId room hRoom, hRole]

/-- Witness for `nonhost_set_question_forbidden`: a player in room `"R"`
sending the valid question `q1` is refused and the registry is unchanged. -/
theorem nonhost_set_question_forbidden_witness :
    handleMessage roomsAfterSetQ 1 playerMeta (.value setQ1Val)
      = .ok roomsAfterSetQ playerMeta [(1, errorMsg "Solo host puede crear preguntas.")] :=
  nonhost_set_question_forbidden roomsAfterSetQ 1 playerMeta roomSetQ setQ1Val
    rfl rfl rfl rfl rfl

/-- Claim C8: while a connection has not completed a successful `JOIN`
(`meta.roomId` still falsy), every well-formed non-`JOIN` command is rejected
with the `NotJoined` error and no registry entry is touched or created; and a
failed `JOIN` (missing field, or unrecognized role) leaves the metadata and
the registry unchanged, so the session stays unjoined and belongs to no
room. -/
theorem unjoined_commands_rejected
    (rooms : RoomMap) (self : Nat) (meta : Meta) (msg : JsVal)
    (hUnjoined : truthy meta.roomId = false) :
    (truthy (prop msg "type") = true → truthy (prop msg "payload") = true →
      jsEq (prop msg "type") (.str "JOIN") = false →
      handleMessage rooms self meta (.value msg)
        = .ok rooms meta [(self, errorMsg "Debes hacer JOIN primero.")])
    ∧ (prop msg "type" = .str "JOIN" → truthy (prop msg "payload") = true →
      (truthy (prop (prop msg "payload") "roomId") = false
        ∨ truthy (prop (prop msg "payload") "name") = false
        ∨ truthy (prop (prop msg "payload") "role") = false) →
      handleMessage rooms self meta (.value msg)
        = .ok rooms meta [(self, errorMsg "JOIN incompleto.")])
    ∧ (prop msg "type" = .str "JOIN" → truthy (prop msg "payload") = true →
      truthy (prop (prop msg "payload") "roomId") = true →
      truthy (prop (prop msg "payload") "name") = true →
      truthy (prop (prop msg "payload") "role") = true →
      jsEq (prop (prop msg "payload") "role") (.str "player") = false →
      jsEq (prop (prop msg "payload") "role") (.str "host") = false →
      handleMessage rooms self meta (.value msg)
        = .ok rooms meta [(self, errorMsg "Rol inválido.")]) := by
  refine ⟨?_, ?_, ?_⟩
  · intro hT hP hNotJoin
    simp [handleMessage, hT, hP, hNotJoin, hUnjoined]
  · intro hT hP hMissing
    have e1 : truthy (JsVal.str "JOIN") = true := rfl
    have e2 : jsEq (JsVal.str "JOIN") (JsVal.str "JOIN") = true := rfl
    rcases hMissing with h | h | h <;>
      simp [handleMessage, hT, hP, e1, e2, handleJoin, h]
  · intro hT hP h1 h2 h3 hr1 hr2
    have e1 : truthy (JsVal.str "JOIN") = true := rfl
    have e2 : jsEq (JsVal.str "JOIN") (JsVal.str "JOIN") = true := rfl
    simp [handleMessage, hT, hP, e1, e2, handleJoin, h1, h2, h3, hr1, hr2]

/-- Witness for `unjoined_commands_rejected`: a `VOTE` on a fresh connection
that never joined is answered with the `NotJoined` error and creates no
room. -/
theorem unjoined_commands_rejected_witness :
    handleMessage [] 4 initMeta (.value voteHalfVal)
      = .ok [] initMeta [(4, errorMsg "Debes hacer JOIN primero.")] :=
  (unjoined_commands_rejected [] 4 initMeta voteHalfVal rfl).1 rfl rfl rfl

/-- Claim C9: a `JOIN` with non-empty `roomId` and `name` and role `player`
or `host` binds the session's room, name and role, adds the connection to the
room's members — creating the room with no question, empty counts, zero total
and no ballots when absent — and sends the room's current snapshot to the
joining connection only, with no broadcast to other members. -/
theorem join_binds_session_and_replies_privately
    (rooms : RoomMap) (self : Nat) (meta : Meta) (msg : JsVal)
    (rid n : String) (role : JsVal)
    (hType : prop msg "type" = .str "JOIN")
    (hPayload : truthy (prop msg "payload") = true)
    (hRoomId : prop (prop msg "payload") "roomId" = .str rid) (hrid : rid ≠ "")
    (hName : prop (prop msg "payload") "name" = .str n) (hn : n ≠ "")
    (hRole : prop (prop msg "payload") "role" = role)
    (hRoleOk : role = .str "player" ∨ role = .str "host") :
    (findRoom rooms (.str rid) = none →
      handleMessage rooms self meta (.value msg)
        = .ok (setRoom rooms (.str rid) { emptyRoom with clients := [self] })
            { roomId := .str rid, name := .str n, role := role }
            [(self, .state (.str rid) none [] 0)])
    ∧ (∀ room, findRoom rooms (.str rid) = some room →
      handleMessage rooms self meta (.value msg)
        = .ok (setRoom rooms (.str rid) { room with clients := addClient room.clients self })
            { roomId := .str rid, name := .str n, role := role }
            [(self, .state (.str rid) room.question room.counts room.total)]) := by
  constructor
  · intro hFind
    have h := join_updates rooms self meta msg rid n role hType hPayload hRoomId hrid
      hName hn hRole hRoleOk
    rw [hFind] at h
    exact h
  · intro room hFind
    have h := join_updates rooms self meta msg rid n role hType hPayload hRoomId hrid
      hName hn hRole hRoleOk
    rw [hFind] at h
    exact h

/-- Witness for `join_binds_session_and_replies_privately`: connection 7
joining the absent room `"R2"` as `"Ana"`/`player` creates the room, becomes
its only member, and receives the empty snapshot as the single send. -/
theorem join_binds_session_and_replies_privately_witness :
    handleMessage [] 7 initMeta (.value joinAnaVal)
      = .ok [(.str "R2", { emptyRoom with clients := [7] })]
          { roomId := .str "R2", name := .str "Ana", role := .str "player" }
          [(7, .state (.str "R2") none [] 0)] :=
  (join_binds_session_and_replies_privately [] 7 initMeta joinAnaVal "R2" "Ana" (.str "player")
      rfl rfl rfl (by decide) rfl (by decide) rfl (Or.inl rfl)).1 rfl

/-- Claim C10: a connection that joins room `a` and then joins a different
room `b` stays in `a`'s member set (so `a`'s broadcasts still reach it), and
closing the connection removes it from `b`'s members only, leaving the stale
entry in `a`. -/
theorem rejoin_leaves_stale_membership
    (rooms₀ : RoomMap) (self : Nat) (meta₀ : Meta)
    (a b na nb : String) (ra rb : JsVal) (msgA msgB : JsVal)
    (ha : a ≠ "") (hb : b ≠ "") (hab : a ≠ b)
    (hna : na ≠ "") (hnb : nb ≠ "")
    (hra : ra = .str "player" ∨ ra = .str "host")
    (hrb : rb = .str "player" ∨ rb = .str "host")
    (hAType : prop msgA "type" = .str "JOIN")
    (hAPayload : truthy (prop msgA "payload") = true)
    (hARoomId : prop (prop msgA "payload") "roomId" = .str a)
    (hAName : prop (prop msgA "payload") "name" = .str na)
    (hARole : prop (prop msgA "payload") "role" = ra)
    (hBType : prop msgB "type" = .str "JOIN")
    (hBPayload : truthy (prop msgB "payload") = true)
    (hBRoomId : prop (prop msgB "payload") "roomId" = .str b)
    (hBName : prop (prop msgB "payload") "name" = .str nb)
    (hBRole : prop (prop msgB "payload") "role" = rb)
    (rooms₁ rooms₂ : RoomMap) (meta₁ meta₂ : Meta)
    (sends₁ sends₂ : List (Nat × Event))
    (h₁ : handleMessage rooms₀ self meta₀ (.value msgA) = .ok rooms₁ meta₁ sends₁)
    (h₂ : handleMessage rooms₁ self meta₁ (.value msgB) = .ok rooms₂ meta₂ sends₂) :
    (∃ roomA, findRoom rooms₂ (.str a) = some roomA ∧ roomA.clients.contains self = true)
    ∧ (∃ roomA, findRoom (handleClose rooms₂ self meta₂) (.str a) = some roomA
        ∧ roomA.clients.contains self = true
        ∧ ∀ ev, (self, ev) ∈ (broadcast (handleClose rooms₂ self meta₂) (.str a) ev).2)
    ∧ (∃ roomB, findRoom (handleClose rooms₂ self meta₂) (.str b) = some roomB
        ∧ roomB.clients.contains self = false) := by
  have jsba : jsEq (JsVal.str b) (JsVal.str a) = false := by
    simp [jsEq]
    exact fun h => hab h.symm
  have jA := join_updates rooms₀ self meta₀ msgA a na ra hAType hAPayload hARoomId ha
    hAName hna hARole hra
  have jB := join_updates rooms₁ self meta₁ msgB b nb rb hBType hBPayload hBRoomId hb
    hBName hnb hBRole hrb
  injection h₁.symm.trans jA with eR₁ eM₁ eS₁
  injection h₂.symm.trans jB with eR₂ eM₂ eS₂
  have hFindA₁ : findRoom rooms₁ (.str a)
      = some { (findRoom rooms₀ (.str a)).getD emptyRoom with
               clients := addClient ((findRoom rooms₀ (.str a)).getD emptyRoom).clients self } := by
    rw [eR₁]
    exact findRoom_setRoom_self ..
  have hFindA₂ : findRoom rooms₂ (.str a)
      = some { (findRoom rooms₀ (.str a)).getD emptyRoom with
               clients := addClient ((findRoom rooms₀ (.str a)).getD emptyRoom).clients self } := by
    rw [eR₂, findRoom_setRoom_other _ _ _ _ jsba]
    exact hFindA₁
  have hFindB₂ : findRoom rooms₂ (.str b)
      = some { (findRoom rooms₁ (.str b)).getD emptyRoom with
               clients := addClient ((findRoom rooms₁ (.str b)).getD emptyRoom).clients self } := by
    rw [eR₂]
    exact findRoom_setRoom_self ..
  have hClose : handleClose rooms₂ self meta₂
      = setRoom rooms₂ (.str b)
          { (findRoom rooms₁ (.str b)).getD emptyRoom with
            clients := removeClient
              (addClient ((findRoom rooms₁ (.str b)).getD emptyRoom).clients self) self } := by
    have hbT : truthy (JsVal.str b) = true := by simp [truthy, hb]
    rw [eM₂]
    simp [handleClose, hbT, getRoom_found _ _ _ hFindB₂]
  have hFindA₃ : findRoom (handleClose rooms₂ self meta₂) (.str a)
      = some { (findRoom rooms₀ (.str a)).getD emptyRoom with
               clients := addClient ((findRoom rooms₀ (.str a)).getD emptyRoom).clients self } := by
    rw [hClose, findRoom_setRoom_other _ _ _ _ jsba]
    exact hFindA₂
  have hFindB₃ : findRoom (handleClose rooms₂ self meta₂) (.str b)
      = some { (findRoom rooms₁ (.str b)).getD emptyRoom with
               clients := removeClient
                 (addClient ((findRoom rooms₁ (.str b)).getD emptyRoom).clients self) self } := by
    rw [hClose]
    exact findRoom_setRoom_self ..
  refine ⟨⟨_, hFindA₂, addClient_contains_self _ _⟩,
          ⟨_, hFindA₃, addClient_contains_self _ _, ?_⟩,
          ⟨_, hFindB₃, removeClient_contains_self _ _⟩⟩
  intro ev
  have hmem : self ∈ (({ (findRoom rooms₀ (.str a)).getD emptyRoom with
      clients := addClient ((findRoom rooms₀ (.str a)).getD emptyRoom).clients self } : Room)).clients := by
    have := addClient_contains_self ((findRoom rooms₀ (.str a)).getD emptyRoom).clients self
    simpa using this
  simp [broadcast, getRoom_found _ _ _ hFindA₃]
  simpa using hmem

/-- Witness for `rejoin_leaves_stale_membership`: connection 9 joins room
`"A"` and then room `"B"` on a fresh server; it is a member of both, and
after the close only `"B"` drops it while `"A"` keeps the stale entry and
still addresses broadcasts to it. -/
theorem rejoin_leaves_stale_membership_witness :
    (∃ roomA, findRoom roomsAB (.str "A") = some roomA ∧ roomA.clients.contains 9 = true)
    ∧ (∃ roomA, findRoom (handleClose roomsAB 9 metaB) (.str "A") = some roomA
        ∧ roomA.clients.contains 9 = true
        ∧ ∀ ev, (9, ev) ∈ (broadcast (handleClose roomsAB 9 metaB) (.str "A") ev).2)
    ∧ (∃ roomB, findRoom (handleClose roomsAB 9 metaB) (.str "B") = some roomB
        ∧ roomB.clients.contains 9 = false) :=
  rejoin_leaves_stale_membership [] 9 initMeta "A" "B" "n" "n" (.str "player") (.str "player")
    joinAVal joinBVal (by decide) (by decide) (by decide) (by decide) (by decide)
    (Or.inl rfl) (Or.inl rfl)
    rfl rfl rfl rfl rfl rfl rfl rfl rfl rfl
    roomsA roomsAB metaA metaB
    [(9, .state (.str "A") none [] 0)] [(9, .state (.str "B") none [] 0)]
    rfl rfl

end LivePoll
